import Mathlib

/-!
Verification of the deployment-bundle CLI: the translate-paths mutator
(path resolver, task/library traversal, fail-fast error semantics), the
json-schema type-name validation, and the interactive logger's Ask.

The mutator and schema validator bodies are not present in the repository
snapshot (only their test suites are), so those components are modelled
from the specification; the logger's Ask is embedded from its source.
-/

deriving instance DecidableEq for Except

namespace BundleCLI

/-! ### Paths -/

/-- Split a character list on a separator character; like `String.splitOn`
with a one-character separator, but structurally recursive. -/
def splitOnChar (c : Char) : List Char → List (List Char)
  | [] => [[]]
  | a :: rest =>
    if a = c then
      [] :: splitOnChar c rest
    else
      match splitOnChar c rest with
      | [] => [[a]]
      | s :: ss => (a :: s) :: ss

/-- Join character lists with a separator character. -/
def joinWithChar (c : Char) : List (List Char) → List Char
  | [] => []
  | [s] => s
  | s :: ss => s ++ c :: joinWithChar c ss

/-- Modelled from the spec: `basename(rawPath)` — the final path component,
the part after the last `/`. -/
def basename (p : String) : String :=
  String.mk ((splitOnChar '/' p.data).getLastD p.data)

/-- Modelled from the spec: stripping the file extension — everything from
the last `.` on is removed (remote notebooks are extensionless). -/
def stripExtension (s : String) : String :=
  let parts := splitOnChar '.' s.data
  if parts.length ≤ 1 then s else String.mk (joinWithChar '.' parts.dropLast)

/-- The basename with its file extension stripped. -/
def stem (p : String) : String := stripExtension (basename p)

/-- Modelled from the spec: the classification of a workspace-absolute path
(spec leaves the exact predicate open; every example classifies a path as
workspace-absolute exactly when it begins with `/`, e.g.
`/Users/jane.doe@databricks.com/doesnt_exist.py`, `/bundle`). -/
def isWorkspaceAbs (p : String) : Bool :=
  p.data.headI = '/'

/-- A relative path with a leading `./` stripped, as `filepath.Join` with the
local root would normalize it. -/
def normalizeRel (p : String) : String :=
  if p.data.take 2 = ['.', '/'] then String.mk (p.data.drop 2) else p

/-- The local filesystem under `localRoot`, abstracted as the list of
relative paths at which a file exists. -/
def fileExists (fs : List String) (p : String) : Bool :=
  (normalizeRel p) ∈ fs

/-- The two artifact kinds distinguished by the path resolver. -/
inductive PathKind where
  | notebook
  | file
deriving DecidableEq, Repr

/-- The literal used in the not-found error message for each kind. -/
def kindName : PathKind → String
  | .notebook => "notebook"
  | .file => "file"

/-- Modelled from the spec: `resolve(localRoot, remoteRoot, rawPath, kind)`.
A workspace-absolute path is returned unchanged with no existence check;
a relative path must exist under the local root (abstracted by `fs`) and is
rewritten to `remoteRoot ++ "/" ++ basename`, the extension stripped for
notebooks and kept for files; a missing relative path yields the error
`"<kind> <rawPath> not found"` with the original string. -/
def resolvePath (fs : List String) (remoteRoot : String) (rawPath : String)
    (kind : PathKind) : Except String String :=
  if isWorkspaceAbs rawPath then
    .ok rawPath
  else if fileExists fs rawPath then
    .ok (remoteRoot ++ "/" ++
      (match kind with
       | .notebook => stripExtension (basename rawPath)
       | .file => basename rawPath))
  else
    .error (kindName kind ++ " " ++ rawPath ++ " not found")

/-! ### Resource model -/

/-- Modelled from the spec: a Job task is a tagged variant; only
`notebook` and `sparkPython` carry a path to translate. -/
inductive Task where
  | notebook (notebookPath : String)
  | pythonWheel (packageName : String)
  | sparkPython (pythonFile : String)
  | other
deriving DecidableEq, Repr

/-- Modelled from the spec: a Pipeline library is a tagged variant; only
`notebook` and `file` carry a path to translate. -/
inductive Library where
  | notebook (path : String)
  | jar (name : String)
  | file (path : String)
deriving DecidableEq, Repr

/-- A Job: an ordered sequence of tasks. -/
structure Job where
  tasks : List Task
deriving DecidableEq, Repr

/-- A Pipeline: an ordered sequence of libraries. -/
structure Pipeline where
  libraries : List Library
deriving DecidableEq, Repr

/-- A Bundle: the remote deployment root and the resources; the local root
is abstracted by the filesystem `fs` passed to the mutator. -/
structure Bundle where
  remoteRoot : String
  jobs : List Job
  pipelines : List Pipeline
deriving DecidableEq, Repr

/-! ### Translate-paths mutator -/

/-- Modelled from the spec: per-task translation — `NotebookTask.notebookPath`
resolves with kind notebook, `SparkPythonTask.pythonFile` with kind file, and
every other variant is untouched; a resolver error aborts. -/
def translateTask (fs : List String) (root : String) : Task → Except String Task
  | .notebook p =>
    match resolvePath fs root p .notebook with
    | .ok q => .ok (.notebook q)
    | .error e => .error e
  | .sparkPython p =>
    match resolvePath fs root p .file with
    | .ok q => .ok (.sparkPython q)
    | .error e => .error e
  | .pythonWheel s => .ok (.pythonWheel s)
  | .other => .ok .other

/-- Modelled from the spec: per-library translation — `Notebook.path`
resolves with kind notebook, `File.path` with kind file, `Jar` is untouched. -/
def translateLibrary (fs : List String) (root : String) : Library → Except String Library
  | .notebook p =>
    match resolvePath fs root p .notebook with
    | .ok q => .ok (.notebook q)
    | .error e => .error e
  | .file p =>
    match resolvePath fs root p .file with
    | .ok q => .ok (.file q)
    | .error e => .error e
  | .jar n => .ok (.jar n)

/-- Apply a fallible rewriting to every element of a list in order,
aborting at the first error — the sequential for-loop of the mutator. -/
def exceptMapList {α β : Type} (f : α → Except String β) :
    List α → Except String (List β)
  | [] => .ok []
  | a :: l =>
    match f a with
    | .error e => .error e
    | .ok b =>
      match exceptMapList f l with
      | .error e => .error e
      | .ok bs => .ok (b :: bs)

/-- Translate every task of a job in declared order, fail-fast. -/
def translateJob (fs : List String) (root : String) (j : Job) : Except String Job :=
  match exceptMapList (translateTask fs root) j.tasks with
  | .ok ts => .ok ⟨ts⟩
  | .error e => .error e

/-- Translate every library of a pipeline in declared order, fail-fast. -/
def translatePipeline (fs : List String) (root : String) (pl : Pipeline) :
    Except String Pipeline :=
  match exceptMapList (translateLibrary fs root) pl.libraries with
  | .ok ls => .ok ⟨ls⟩
  | .error e => .error e

/-- Modelled from the spec: `apply(bundle)` of the translate-paths mutator —
all Jobs (in collection order) before all Pipelines, elements in declared
sequence order, aborting at the first resolver error. -/
def applyTranslatePaths (fs : List String) (b : Bundle) : Except String Bundle :=
  match exceptMapList (translateJob fs b.remoteRoot) b.jobs with
  | .error e => .error e
  | .ok js =>
    match exceptMapList (translatePipeline fs b.remoteRoot) b.pipelines with
    | .error e => .error e
    | .ok ps => .ok { b with jobs := js, pipelines := ps }

/-! ### Reference lists (specification side) -/

/-- The path references carried by a task, with their resolution kind. -/
def taskRefs : Task → List (PathKind × String)
  | .notebook p => [(.notebook, p)]
  | .sparkPython p => [(.file, p)]
  | _ => []

/-- The path references carried by a library, with their resolution kind. -/
def libRefs : Library → List (PathKind × String)
  | .notebook p => [(.notebook, p)]
  | .file p => [(.file, p)]
  | .jar _ => []

/-- All references of a bundle in processing order: all jobs' tasks, then all
pipelines' libraries, each in declared order. -/
def bundleRefs (b : Bundle) : List (PathKind × String) :=
  (b.jobs.flatMap fun j => j.tasks.flatMap taskRefs) ++
    (b.pipelines.flatMap fun pl => pl.libraries.flatMap libRefs)

/-- The resolver error produced by one reference, if any. -/
def refError (fs : List String) (root : String) (r : PathKind × String) :
    Option String :=
  match resolvePath fs root r.2 r.1 with
  | .ok _ => none
  | .error e => some e

/-- The resolved path of a reference, the original string on error. -/
def resolveD (fs : List String) (root : String) (k : PathKind) (p : String) :
    String :=
  match resolvePath fs root p k with
  | .ok q => q
  | .error _ => p

/-- Rewrite a task's path field with a pure function of kind and path. -/
def mapTask (f : PathKind → String → String) : Task → Task
  | .notebook p => .notebook (f .notebook p)
  | .sparkPython p => .sparkPython (f .file p)
  | t => t

/-- Rewrite a library's path field with a pure function of kind and path. -/
def mapLibrary (f : PathKind → String → String) : Library → Library
  | .notebook p => .notebook (f .notebook p)
  | .file p => .file (f .file p)
  | l => l

/-- Rewrite every path field of a bundle with a pure function. -/
def mapBundle (f : PathKind → String → String) (b : Bundle) : Bundle :=
  { b with
    jobs := b.jobs.map fun j => ⟨j.tasks.map (mapTask f)⟩
    pipelines := b.pipelines.map fun pl => ⟨pl.libraries.map (mapLibrary f)⟩ }

/-- The task at job index `i`, task index `j`. -/
def taskAt (b : Bundle) (i j : Nat) : Option Task :=
  (b.jobs[i]?).bind fun jb => jb.tasks[j]?

/-- The library at pipeline index `i`, library index `j`. -/
def libAt (b : Bundle) (i j : Nat) : Option Library :=
  (b.pipelines[i]?).bind fun pl => pl.libraries[j]?

/-! ### Json-schema type-name validation -/

/-- A property schema: its declared json-schema type name. -/
structure PropSchema where
  type : String
deriving DecidableEq

/-- A schema: named properties, each with a property schema. -/
structure Schema where
  properties : List (String × PropSchema)
deriving DecidableEq

/-- Modelled from the spec: the type-name check of `jsonschema.Schema.validate`
(the validator body is not in the snapshot; behaviour reconstructed from its
test `TestSchemaValidateTypeNames`). The names `string`, `boolean`, `number`
and `integer` are accepted; `int`, `float` and `bool` are rejected with a
suggestion of the recognized name; any other name is rejected with the
generic message. -/
def validateTypeName (t : String) : Except String Unit :=
  if t = "string" ∨ t = "boolean" ∨ t = "number" ∨ t = "integer" then
    .ok ()
  else if t = "int" then
    .error ("type " ++ t ++ " is not a recognized json schema type. Please use \"integer\" instead")
  else if t = "float" then
    .error ("type " ++ t ++ " is not a recognized json schema type. Please use \"number\" instead")
  else if t = "bool" then
    .error ("type " ++ t ++ " is not a recognized json schema type. Please use \"boolean\" instead")
  else
    .error ("type " ++ t ++ " is not a recognized json schema type")

/-- Validate the declared type name of every property, fail-fast. -/
def validateProps : List (String × PropSchema) → Except String Unit
  | [] => .ok ()
  | kv :: rest =>
    match validateTypeName kv.2.type with
    | .ok _ => validateProps rest
    | .error e => .error e

/-- Modelled from the spec: `Schema.validate` restricted to the type-name
check exercised by its test. -/
def Schema.validate (s : Schema) : Except String Unit :=
  validateProps s.properties

/-- A schema with the single property `foo` of the given type name, as built
by the validator's test. -/
def singlePropSchema (t : String) : Schema :=
  ⟨[("foo", ⟨t⟩)]⟩

/-! ### Logger.Ask (embedded from `libs/cmdio/logger.go`) -/

/-- The observable outcome of `Logger.Ask`: the byte strings written to the
logger's writer, the boolean answer, and the returned error, if any. -/
structure AskOutcome where
  written : List String
  answer : Bool
  err : Option String
deriving DecidableEq

/-- `Logger.Ask` from `libs/cmdio/logger.go`: writes the question, reads one
line (modelled by the line `ReadString` returned together with its error);
on a read error returns `(false, err)`; otherwise returns `true` exactly
when the line is `"y\n"`. -/
def ask (question : String) (line : String) (readErr : Option String) :
    AskOutcome :=
  match readErr with
  | some e => ⟨[question], false, some e⟩
  | none =>
    if line = "y\n" then ⟨[question], true, none⟩
    else ⟨[question], false, none⟩

/-! ### Helper lemmas -/

theorem isWorkspaceAbs_append (root s : String) (h : isWorkspaceAbs root = true) :
    isWorkspaceAbs (root ++ s) = true := by
  unfold isWorkspaceAbs at h ⊢
  rw [String.data_append]
  cases hd : root.data with
  | nil => rw [hd] at h; exact absurd h (by decide)
  | cons c l =>
    rw [hd] at h
    simpa using h

theorem resolvePath_abs (fs : List String) (root p : String) (k : PathKind)
    (h : isWorkspaceAbs p = true) : resolvePath fs root p k = .ok p := by
  simp [resolvePath, h]

theorem resolvePath_notebook_exists (fs : List String) (root p : String)
    (h1 : isWorkspaceAbs p = false) (h2 : fileExists fs p = true) :
    resolvePath fs root p .notebook = .ok (root ++ "/" ++ stem p) := by
  simp [resolvePath, h1, h2, stem]

theorem resolvePath_file_exists (fs : List String) (root p : String)
    (h1 : isWorkspaceAbs p = false) (h2 : fileExists fs p = true) :
    resolvePath fs root p .file = .ok (root ++ "/" ++ basename p) := by
  simp [resolvePath, h1, h2]

theorem resolvePath_missing (fs : List String) (root p : String) (k : PathKind)
    (h1 : isWorkspaceAbs p = false) (h2 : fileExists fs p = false) :
    resolvePath fs root p k = .error (kindName k ++ " " ++ p ++ " not found") := by
  simp [resolvePath, h1, h2]

theorem resolvePath_ok_isAbs (fs : List String) (root p q : String) (k : PathKind)
    (hroot : isWorkspaceAbs root = true)
    (h : resolvePath fs root p k = .ok q) : isWorkspaceAbs q = true := by
  unfold resolvePath at h
  by_cases h1 : isWorkspaceAbs p
  · simp [h1] at h
    exact h ▸ h1
  · simp [h1] at h
    by_cases h2 : fileExists fs p
    · simp [h2] at h
      cases k with
      | notebook =>
        rw [← h]
        exact isWorkspaceAbs_append (root ++ "/") (stripExtension (basename p))
          (isWorkspaceAbs_append root "/" hroot)
      | file =>
        rw [← h]
        exact isWorkspaceAbs_append (root ++ "/") (basename p)
          (isWorkspaceAbs_append root "/" hroot)
    · simp [h2] at h

theorem translateTask_ok_map (fs : List String) (root : String) (t t' : Task)
    (h : translateTask fs root t = .ok t') : t' = mapTask (resolveD fs root) t := by
  cases t with
  | notebook p =>
    simp only [translateTask] at h
    cases hr : resolvePath fs root p .notebook with
    | ok q => rw [hr] at h; simp at h; simp [mapTask, resolveD, hr, ← h]
    | error e => rw [hr] at h; simp at h
  | sparkPython p =>
    simp only [translateTask] at h
    cases hr : resolvePath fs root p .file with
    | ok q => rw [hr] at h; simp at h; simp [mapTask, resolveD, hr, ← h]
    | error e => rw [hr] at h; simp at h
  | pythonWheel s => simp [translateTask] at h; simp [mapTask, ← h]
  | other => simp [translateTask] at h; simp [mapTask, ← h]

theorem translateTask_error_iff (fs : List String) (root : String) (t : Task)
    (e : String) :
    translateTask fs root t = .error e ↔
      (taskRefs t).findSome? (refError fs root) = some e := by
  cases t with
  | notebook p =>
    unfold translateTask
    cases hr : resolvePath fs root p .notebook with
    | ok q => simp [taskRefs, List.findSome?, refError, hr]
    | error e' => simp [taskRefs, List.findSome?, refError, hr]
  | sparkPython p =>
    unfold translateTask
    cases hr : resolvePath fs root p .file with
    | ok q => simp [taskRefs, List.findSome?, refError, hr]
    | error e' => simp [taskRefs, List.findSome?, refError, hr]
  | pythonWheel s => simp [translateTask, taskRefs]
  | other => simp [translateTask, taskRefs]

theorem translateTask_fixed (fs : List String) (root : String) (t : Task)
    (h : ∀ r ∈ taskRefs t, isWorkspaceAbs r.2 = true) :
    translateTask fs root t = .ok t := by
  cases t with
  | notebook p =>
    have hp : isWorkspaceAbs p = true := h (.notebook, p) (by simp [taskRefs])
    simp [translateTask, resolvePath_abs fs root p .notebook hp]
  | sparkPython p =>
    have hp : isWorkspaceAbs p = true := h (.file, p) (by simp [taskRefs])
    simp [translateTask, resolvePath_abs fs root p .file hp]
  | pythonWheel s => simp [translateTask]
  | other => simp [translateTask]

theorem translateLibrary_ok_map (fs : List String) (root : String) (l l' : Library)
    (h : translateLibrary fs root l = .ok l') :
    l' = mapLibrary (resolveD fs root) l := by
  cases l with
  | notebook p =>
    simp only [translateLibrary] at h
    cases hr : resolvePath fs root p .notebook with
    | ok q => rw [hr] at h; simp at h; simp [mapLibrary, resolveD, hr, ← h]
    | error e => rw [hr] at h; simp at h
  | file p =>
    simp only [translateLibrary] at h
    cases hr : resolvePath fs root p .file with
    | ok q => rw [hr] at h; simp at h; simp [mapLibrary, resolveD, hr, ← h]
    | error e => rw [hr] at h; simp at h
  | jar n => simp [translateLibrary] at h; simp [mapLibrary, ← h]

theorem translateLibrary_error_iff (fs : List String) (root : String)
    (l : Library) (e : String) :
    translateLibrary fs root l = .error e ↔
      (libRefs l).findSome? (refError fs root) = some e := by
  cases l with
  | notebook p =>
    unfold translateLibrary
    cases hr : resolvePath fs root p .notebook with
    | ok q => simp [libRefs, List.findSome?, refError, hr]
    | error e' => simp [libRefs, List.findSome?, refError, hr]
  | file p =>
    unfold translateLibrary
    cases hr : resolvePath fs root p .file with
    | ok q => simp [libRefs, List.findSome?, refError, hr]
    | error e' => simp [libRefs, List.findSome?, refError, hr]
  | jar n => simp [translateLibrary, libRefs]

theorem translateLibrary_fixed (fs : List String) (root : String) (l : Library)
    (h : ∀ r ∈ libRefs l, isWorkspaceAbs r.2 = true) :
    translateLibrary fs root l = .ok l := by
  cases l with
  | notebook p =>
    have hp : isWorkspaceAbs p = true := h (.notebook, p) (by simp [libRefs])
    simp [translateLibrary, resolvePath_abs fs root p .notebook hp]
  | file p =>
    have hp : isWorkspaceAbs p = true := h (.file, p) (by simp [libRefs])
    simp [translateLibrary, resolvePath_abs fs root p .file hp]
  | jar n => simp [translateLibrary]

theorem exceptMapList_error_iff {α β : Type} (f : α → Except String β)
    (g : α → List (PathKind × String)) (fs : List String) (root : String)
    (hf : ∀ a e, f a = .error e ↔ (g a).findSome? (refError fs root) = some e) :
    ∀ (l : List α) (e : String),
      exceptMapList f l = .error e ↔
        (l.flatMap g).findSome? (refError fs root) = some e := by
  intro l
  induction l with
  | nil => intro e; simp [exceptMapList]
  | cons a l ih =>
    intro e
    cases hfa : f a with
    | error e' =>
      have hga : (g a).findSome? (refError fs root) = some e' := (hf a e').mp hfa
      simp [exceptMapList, hfa, List.findSome?_append, hga, Option.or]
    | ok b =>
      have hga : (g a).findSome? (refError fs root) = none := by
        cases hga : (g a).findSome? (refError fs root) with
        | none => rfl
        | some e'' => rw [(hf a e'').mpr hga] at hfa; exact absurd hfa (by simp)
      cases hml : exceptMapList f l with
      | error e'' =>
        have h2 : (l.flatMap g).findSome? (refError fs root) = some e'' :=
          (ih e'').mp hml
        simp [exceptMapList, hfa, hml, List.findSome?_append, hga, Option.or, h2]
      | ok bs =>
        have h2 : (l.flatMap g).findSome? (refError fs root) = none := by
          cases h2 : (l.flatMap g).findSome? (refError fs root) with
          | none => rfl
          | some e'' => rw [(ih e'').mpr h2] at hml; exact absurd hml (by simp)
        simp [exceptMapList, hfa, hml, List.findSome?_append, hga, Option.or, h2]

theorem exceptMapList_ok_map {α β : Type} (f : α → Except String β) (m : α → β)
    (hf : ∀ a b, f a = .ok b → b = m a) :
    ∀ (l : List α) (l' : List β), exceptMapList f l = .ok l' → l' = l.map m := by
  intro l
  induction l with
  | nil => intro l' h; simp [exceptMapList] at h; simp [← h]
  | cons a l ih =>
    intro l' h
    cases hfa : f a with
    | error e => simp [exceptMapList, hfa] at h
    | ok b =>
      cases hml : exceptMapList f l with
      | error e => simp [exceptMapList, hfa, hml] at h
      | ok bs =>
        simp [exceptMapList, hfa, hml] at h
        rw [← h, List.map_cons, hf a b hfa, ih bs hml]

theorem exceptMapList_fixed {α : Type} (f : α → Except String α) :
    ∀ (l : List α), (∀ a ∈ l, f a = .ok a) → exceptMapList f l = .ok l := by
  intro l
  induction l with
  | nil => intro _; simp [exceptMapList]
  | cons a l ih =>
    intro h
    simp [exceptMapList, h a (by simp), ih fun a ha => h a (by simp [ha])]

theorem translateJob_error_iff (fs : List String) (root : String) (j : Job)
    (e : String) :
    translateJob fs root j = .error e ↔
      (j.tasks.flatMap taskRefs).findSome? (refError fs root) = some e := by
  have hm := exceptMapList_error_iff (translateTask fs root) taskRefs fs root
    (translateTask_error_iff fs root) j.tasks e
  unfold translateJob
  cases hml : exceptMapList (translateTask fs root) j.tasks with
  | ok ts => rw [hml] at hm; simp [← hm]
  | error e' => rw [hml] at hm; simp [← hm]

theorem translatePipeline_error_iff (fs : List String) (root : String)
    (pl : Pipeline) (e : String) :
    translatePipeline fs root pl = .error e ↔
      (pl.libraries.flatMap libRefs).findSome? (refError fs root) = some e := by
  have hm := exceptMapList_error_iff (translateLibrary fs root) libRefs fs root
    (translateLibrary_error_iff fs root) pl.libraries e
  unfold translatePipeline
  cases hml : exceptMapList (translateLibrary fs root) pl.libraries with
  | ok ls => rw [hml] at hm; simp [← hm]
  | error e' => rw [hml] at hm; simp [← hm]

theorem apply_error_iff (fs : List String) (b : Bundle) (e : String) :
    applyTranslatePaths fs b = .error e ↔
      (bundleRefs b).findSome? (refError fs b.remoteRoot) = some e := by
  unfold applyTranslatePaths bundleRefs
  cases hmj : exceptMapList (translateJob fs b.remoteRoot) b.jobs with
  | error e' =>
    have h1 : (b.jobs.flatMap fun j => j.tasks.flatMap taskRefs).findSome?
        (refError fs b.remoteRoot) = some e' :=
      (exceptMapList_error_iff (translateJob fs b.remoteRoot)
        (fun j => j.tasks.flatMap taskRefs) fs b.remoteRoot
        (fun j e => translateJob_error_iff fs b.remoteRoot j e) b.jobs e').mp hmj
    simp [List.findSome?_append, h1, Option.or]
  | ok js =>
    have h1 : (b.jobs.flatMap fun j => j.tasks.flatMap taskRefs).findSome?
        (refError fs b.remoteRoot) = none := by
      cases hga : (b.jobs.flatMap fun j => j.tasks.flatMap taskRefs).findSome?
          (refError fs b.remoteRoot) with
      | none => rfl
      | some e'' =>
        rw [(exceptMapList_error_iff (translateJob fs b.remoteRoot)
          (fun j => j.tasks.flatMap taskRefs) fs b.remoteRoot
          (fun j e => translateJob_error_iff fs b.remoteRoot j e) b.jobs e'').mpr
          hga] at hmj
        exact absurd hmj (by simp)
    cases hmp : exceptMapList (translatePipeline fs b.remoteRoot) b.pipelines with
    | error e' =>
      have h2 : (b.pipelines.flatMap fun pl => pl.libraries.flatMap libRefs).findSome?
          (refError fs b.remoteRoot) = some e' :=
        (exceptMapList_error_iff (translatePipeline fs b.remoteRoot)
          (fun pl => pl.libraries.flatMap libRefs) fs b.remoteRoot
          (fun pl e => translatePipeline_error_iff fs b.remoteRoot pl e)
          b.pipelines e').mp hmp
      simp [List.findSome?_append, h1, h2, Option.or]
    | ok ps =>
      have h2 : (b.pipelines.flatMap fun pl => pl.libraries.flatMap libRefs).findSome?
          (refError fs b.remoteRoot) = none := by
        cases hga : (b.pipelines.flatMap fun pl => pl.libraries.flatMap libRefs).findSome?
            (refError fs b.remoteRoot) with
        | none => rfl
        | some e'' =>
          rw [(exceptMapList_error_iff (translatePipeline fs b.remoteRoot)
            (fun pl => pl.libraries.flatMap libRefs) fs b.remoteRoot
            (fun pl e => translatePipeline_error_iff fs b.remoteRoot pl e)
            b.pipelines e'').mpr hga] at hmp
          exact absurd hmp (by simp)
      simp [List.findSome?_append, h1, h2, Option.or]

theorem translateJob_ok_map (fs : List String) (root : String) (j j' : Job)
    (h : translateJob fs root j = .ok j') :
    j' = ⟨j.tasks.map (mapTask (resolveD fs root))⟩ := by
  unfold translateJob at h
  cases hml : exceptMapList (translateTask fs root) j.tasks with
  | error e => rw [hml] at h; simp at h
  | ok ts =>
    rw [hml] at h
    simp at h
    rw [← h, exceptMapList_ok_map (translateTask fs root)
      (mapTask (resolveD fs root)) (translateTask_ok_map fs root) j.tasks ts hml]

theorem translatePipeline_ok_map (fs : List String) (root : String)
    (pl pl' : Pipeline) (h : translatePipeline fs root pl = .ok pl') :
    pl' = ⟨pl.libraries.map (mapLibrary (resolveD fs root))⟩ := by
  unfold translatePipeline at h
  cases hml : exceptMapList (translateLibrary fs root) pl.libraries with
  | error e => rw [hml] at h; simp at h
  | ok ls =>
    rw [hml] at h
    simp at h
    rw [← h, exceptMapList_ok_map (translateLibrary fs root)
      (mapLibrary (resolveD fs root)) (translateLibrary_ok_map fs root)
      pl.libraries ls hml]

theorem apply_ok_eq_mapBundle (fs : List String) (b b' : Bundle)
    (h : applyTranslatePaths fs b = .ok b') :
    b' = mapBundle (resolveD fs b.remoteRoot) b := by
  unfold applyTranslatePaths at h
  cases hmj : exceptMapList (translateJob fs b.remoteRoot) b.jobs with
  | error e => rw [hmj] at h; simp at h
  | ok js =>
    rw [hmj] at h
    cases hmp : exceptMapList (translatePipeline fs b.remoteRoot) b.pipelines with
    | error e => rw [hmp] at h; simp at h
    | ok ps =>
      rw [hmp] at h
      simp at h
      rw [← h]
      unfold mapBundle
      have hj : js = b.jobs.map fun j => ⟨j.tasks.map (mapTask (resolveD fs b.remoteRoot))⟩ :=
        exceptMapList_ok_map (translateJob fs b.remoteRoot)
          (fun j => ⟨j.tasks.map (mapTask (resolveD fs b.remoteRoot))⟩)
          (translateJob_ok_map fs b.remoteRoot) b.jobs js hmj
      have hp : ps = b.pipelines.map fun pl => ⟨pl.libraries.map (mapLibrary (resolveD fs b.remoteRoot))⟩ :=
        exceptMapList_ok_map (translatePipeline fs b.remoteRoot)
          (fun pl => ⟨pl.libraries.map (mapLibrary (resolveD fs b.remoteRoot))⟩)
          (translatePipeline_ok_map fs b.remoteRoot) b.pipelines ps hmp
      rw [hj, hp]

theorem apply_ok_refError_none (fs : List String) (b b' : Bundle)
    (h : applyTranslatePaths fs b = .ok b') :
    ∀ r ∈ bundleRefs b, refError fs b.remoteRoot r = none := by
  intro r hr
  cases hre : refError fs b.remoteRoot r with
  | none => rfl
  | some e =>
    exfalso
    have hne : (bundleRefs b).findSome? (refError fs b.remoteRoot) ≠ none := by
      simp only [ne_eq, List.findSome?_eq_none_iff]
      push_neg
      exact ⟨r, hr, by simp [hre]⟩
    cases hfs : (bundleRefs b).findSome? (refError fs b.remoteRoot) with
    | none => exact hne hfs
    | some e' =>
      rw [(apply_error_iff fs b e').mpr hfs] at h
      exact absurd h (by simp)

theorem taskRefs_mapTask (f : PathKind → String → String) (t : Task) :
    taskRefs (mapTask f t) = (taskRefs t).map fun r => (r.1, f r.1 r.2) := by
  cases t <;> simp [taskRefs, mapTask]

theorem libRefs_mapLibrary (f : PathKind → String → String) (l : Library) :
    libRefs (mapLibrary f l) = (libRefs l).map fun r => (r.1, f r.1 r.2) := by
  cases l <;> simp [libRefs, mapLibrary]

theorem bundleRefs_mapBundle (f : PathKind → String → String) (b : Bundle) :
    bundleRefs (mapBundle f b) =
      (bundleRefs b).map fun r => (r.1, f r.1 r.2) := by
  unfold bundleRefs mapBundle
  simp [List.flatMap_map, List.map_flatMap, taskRefs_mapTask, libRefs_mapLibrary,
    Function.comp_def]

theorem mem_bundleRefs_of_task (b : Bundle) (j : Job) (t : Task)
    (r : PathKind × String) (hj : j ∈ b.jobs) (ht : t ∈ j.tasks)
    (hr : r ∈ taskRefs t) : r ∈ bundleRefs b := by
  unfold bundleRefs
  apply List.mem_append_left
  exact List.mem_flatMap_of_mem hj (List.mem_flatMap_of_mem ht hr)

theorem mem_bundleRefs_of_lib (b : Bundle) (pl : Pipeline) (l : Library)
    (r : PathKind × String) (hp : pl ∈ b.pipelines) (hl : l ∈ pl.libraries)
    (hr : r ∈ libRefs l) : r ∈ bundleRefs b := by
  unfold bundleRefs
  apply List.mem_append_right
  exact List.mem_flatMap_of_mem hp (List.mem_flatMap_of_mem hl hr)

theorem apply_fixed_of_abs (fs : List String) (b : Bundle)
    (h : ∀ r ∈ bundleRefs b, isWorkspaceAbs r.2 = true) :
    applyTranslatePaths fs b = .ok b := by
  unfold applyTranslatePaths
  have hjobs : exceptMapList (translateJob fs b.remoteRoot) b.jobs = .ok b.jobs := by
    apply exceptMapList_fixed
    intro j hj
    unfold translateJob
    have htasks : exceptMapList (translateTask fs b.remoteRoot) j.tasks = .ok j.tasks := by
      apply exceptMapList_fixed
      intro t ht
      exact translateTask_fixed fs b.remoteRoot t fun r hr =>
        h r (mem_bundleRefs_of_task b j t r hj ht hr)
    rw [htasks]
  have hpipes : exceptMapList (translatePipeline fs b.remoteRoot) b.pipelines
      = .ok b.pipelines := by
    apply exceptMapList_fixed
    intro pl hp
    unfold translatePipeline
    have hlibs : exceptMapList (translateLibrary fs b.remoteRoot) pl.libraries
        = .ok pl.libraries := by
      apply exceptMapList_fixed
      intro l hl
      exact translateLibrary_fixed fs b.remoteRoot l fun r hr =>
        h r (mem_bundleRefs_of_lib b pl l r hp hl hr)
    rw [hlibs]
  rw [hjobs, hpipes]

theorem resolveD_abs_of_ok (fs : List String) (root : String) (k : PathKind)
    (p : String) (hroot : isWorkspaceAbs root = true)
    (hre : refError fs root (k, p) = none) :
    isWorkspaceAbs (resolveD fs root k p) = true := by
  unfold refError at hre
  unfold resolveD
  cases hr : resolvePath fs root p k with
  | ok q => exact resolvePath_ok_isAbs fs root p q k hroot hr
  | error e => rw [hr] at hre; simp at hre

theorem taskAt_mapBundle (f : PathKind → String → String) (b : Bundle)
    (i j : Nat) : taskAt (mapBundle f b) i j = (taskAt b i j).map (mapTask f) := by
  unfold taskAt mapBundle
  simp only [List.getElem?_map]
  cases b.jobs[i]? with
  | none => simp
  | some jb => simp [List.getElem?_map]

theorem libAt_mapBundle (f : PathKind → String → String) (b : Bundle)
    (i j : Nat) : libAt (mapBundle f b) i j = (libAt b i j).map (mapLibrary f) := by
  unfold libAt mapBundle
  simp only [List.getElem?_map]
  cases b.pipelines[i]? with
  | none => simp
  | some pl => simp [List.getElem?_map]

/-! ### Claims -/

/-- Claim C1: for every relative path that exists as a file under the local
root, translating a NotebookTask notebook path (and a pipeline Notebook
library path) yields `remoteRoot ++ "/" ++ stem p`: the basename with its
extension stripped. -/
theorem claim1_notebook_translation (fs : List String) (root p : String)
    (h1 : isWorkspaceAbs p = false) (h2 : fileExists fs p = true) :
    translateTask fs root (.notebook p)
      = .ok (.notebook (root ++ "/" ++ stem p)) ∧
    translateLibrary fs root (.notebook p)
      = .ok (.notebook (root ++ "/" ++ stem p)) ∧
    applyTranslatePaths fs
        { remoteRoot := root, jobs := [⟨[.notebook p]⟩], pipelines := [] }
      = .ok { remoteRoot := root, jobs := [⟨[.notebook (root ++ "/" ++ stem p)]⟩],
              pipelines := [] } := by
  have hres := resolvePath_notebook_exists fs root p h1 h2
  refine ⟨?_, ?_, ?_⟩ <;>
    simp [translateTask, translateLibrary, applyTranslatePaths, exceptMapList,
      translateJob, hres]

/-- Witness for C1 at the test's own data. -/
theorem claim1_witness :
    translateTask ["my_job_notebook.py"] "/bundle" (.notebook "./my_job_notebook.py")
      = .ok (.notebook "/bundle/my_job_notebook") := by
  have h := claim1_notebook_translation ["my_job_notebook.py"] "/bundle"
    "./my_job_notebook.py" (by decide) (by decide)
  rw [show ("/bundle" ++ "/" ++ stem "./my_job_notebook.py")
    = "/bundle/my_job_notebook" from by decide] at h
  exact h.1

/-- Claim C2: for every relative path that exists as a file under the local
root, translating a SparkPythonTask python file (and a pipeline File library
path) yields `remoteRoot ++ "/" ++ basename p`, the extension preserved. -/
theorem claim2_file_translation (fs : List String) (root p : String)
    (h1 : isWorkspaceAbs p = false) (h2 : fileExists fs p = true) :
    translateTask fs root (.sparkPython p)
      = .ok (.sparkPython (root ++ "/" ++ basename p)) ∧
    translateLibrary fs root (.file p)
      = .ok (.file (root ++ "/" ++ basename p)) ∧
    applyTranslatePaths fs
        { remoteRoot := root, jobs := [⟨[.sparkPython p]⟩], pipelines := [] }
      = .ok { remoteRoot := root,
              jobs := [⟨[.sparkPython (root ++ "/" ++ basename p)]⟩],
              pipelines := [] } := by
  have hres := resolvePath_file_exists fs root p h1 h2
  refine ⟨?_, ?_, ?_⟩ <;>
    simp [translateTask, translateLibrary, applyTranslatePaths, exceptMapList,
      translateJob, hres]

/-- Witness for C2 at the test's own data. -/
theorem claim2_witness :
    translateTask ["my_python_file.py"] "/bundle" (.sparkPython "./my_python_file.py")
      = .ok (.sparkPython "/bundle/my_python_file.py") := by
  have h := claim2_file_translation ["my_python_file.py"] "/bundle"
    "./my_python_file.py" (by decide) (by decide)
  rw [show ("/bundle" ++ "/" ++ basename "./my_python_file.py")
    = "/bundle/my_python_file.py" from by decide] at h
  exact h.1

/-- Claim C3: for every workspace-absolute path, translation is the identity
on that field, independently of the filesystem (no existence check), and no
error is raised even when no such file exists locally. -/
theorem claim3_absolute_identity (fs : List String) (root a : String)
    (k : PathKind) (h : isWorkspaceAbs a = true) :
    resolvePath fs root a k = .ok a ∧
    translateTask fs root (.notebook a) = .ok (.notebook a) ∧
    translateTask fs root (.sparkPython a) = .ok (.sparkPython a) ∧
    translateLibrary fs root (.notebook a) = .ok (.notebook a) ∧
    translateLibrary fs root (.file a) = .ok (.file a) := by
  refine ⟨resolvePath_abs fs root a k h, ?_, ?_, ?_, ?_⟩ <;>
    simp [translateTask, translateLibrary,
      resolvePath_abs fs root a .notebook h, resolvePath_abs fs root a .file h]

/-- Witness for C3: the test's user-home path, against an empty filesystem. -/
theorem claim3_witness :
    translateTask [] "/bundle"
        (.notebook "/Users/jane.doe@example.com/doesnt_exist.py")
      = .ok (.notebook "/Users/jane.doe@example.com/doesnt_exist.py") :=
  (claim3_absolute_identity [] "/bundle"
    "/Users/jane.doe@example.com/doesnt_exist.py" .notebook (by decide)).2.1

/-- Claim C4: a relative path that does not exist under the local root makes
translation fail with exactly `"notebook <p> not found"` for notebook
references and `"file <p> not found"` for file references, where `<p>` is
the original untranslated string; the same error surfaces from the whole
mutator on a bundle referencing it. -/
theorem claim4_missing_not_found (fs : List String) (root p : String)
    (h1 : isWorkspaceAbs p = false) (h2 : fileExists fs p = false) :
    translateTask fs root (.notebook p)
      = .error ("notebook " ++ p ++ " not found") ∧
    translateLibrary fs root (.notebook p)
      = .error ("notebook " ++ p ++ " not found") ∧
    translateTask fs root (.sparkPython p)
      = .error ("file " ++ p ++ " not found") ∧
    translateLibrary fs root (.file p)
      = .error ("file " ++ p ++ " not found") ∧
    applyTranslatePaths fs
        { remoteRoot := root, jobs := [⟨[.notebook p]⟩], pipelines := [] }
      = .error ("notebook " ++ p ++ " not found") ∧
    applyTranslatePaths fs
        { remoteRoot := root, jobs := [⟨[.sparkPython p]⟩], pipelines := [] }
      = .error ("file " ++ p ++ " not found") ∧
    applyTranslatePaths fs
        { remoteRoot := root, jobs := [], pipelines := [⟨[.notebook p]⟩] }
      = .error ("notebook " ++ p ++ " not found") := by
  have hn := resolvePath_missing fs root p .notebook h1 h2
  have hf := resolvePath_missing fs root p .file h1 h2
  simp only [kindName] at hn hf
  refine ⟨?_, ?_, ?_, ?_, ?_, ?_, ?_⟩ <;>
    simp [translateTask, translateLibrary, applyTranslatePaths, exceptMapList,
      translateJob, translatePipeline, hn, hf]

/-- Witness for C4 at the tests' own data. -/
theorem claim4_witness :
    applyTranslatePaths []
        { remoteRoot := "/bundle", jobs := [⟨[.notebook "./doesnt_exist.py"]⟩],
          pipelines := [] }
      = .error "notebook ./doesnt_exist.py not found" := by
  have h := claim4_missing_not_found [] "/bundle" "./doesnt_exist.py"
    (by decide) (by decide)
  rw [show ("notebook " ++ "./doesnt_exist.py" ++ " not found")
    = "notebook ./doesnt_exist.py not found" from by decide] at h
  exact h.2.2.2.2.1

/-- Claim C5: the mutator fails exactly when some reference fails to resolve,
and the error returned is the one of the first failing reference in
processing order (all jobs' tasks, then all pipelines' libraries, in declared
order); a successful apply leaves no reference unresolved. -/
theorem claim5_fail_fast (fs : List String) (b : Bundle) :
    (∀ e, applyTranslatePaths fs b = .error e ↔
      (bundleRefs b).findSome? (refError fs b.remoteRoot) = some e) ∧
    (∀ b', applyTranslatePaths fs b = .ok b' →
      ∀ r ∈ bundleRefs b, refError fs b.remoteRoot r = none) :=
  ⟨fun e => apply_error_iff fs b e,
   fun b' h => apply_ok_refError_none fs b b' h⟩

/-- Witness for C5: with two invalid references, the surfaced error is the
first one in processing order. -/
theorem claim5_witness :
    applyTranslatePaths []
        { remoteRoot := "/bundle",
          jobs := [⟨[.notebook "./a.py", .sparkPython "./b.py"]⟩],
          pipelines := [] }
      = .error "notebook ./a.py not found" :=
  ((claim5_fail_fast []
      { remoteRoot := "/bundle",
        jobs := [⟨[.notebook "./a.py", .sparkPython "./b.py"]⟩],
        pipelines := [] }).1
    "notebook ./a.py not found").mpr (by decide)

/-- Claim C6: the mutator is idempotent — after a successful apply (with a
workspace-absolute remote root, as every deployment bundle has), applying it
again neither alters any already-translated path nor fails. -/
theorem claim6_idempotent (fs : List String) (b b' : Bundle)
    (hroot : isWorkspaceAbs b.remoteRoot = true)
    (h : applyTranslatePaths fs b = .ok b') :
    applyTranslatePaths fs b' = .ok b' := by
  have hmap := apply_ok_eq_mapBundle fs b b' h
  have hnone := apply_ok_refError_none fs b b' h
  apply apply_fixed_of_abs
  intro r hr
  rw [hmap, bundleRefs_mapBundle] at hr
  rcases List.mem_map.mp hr with ⟨r0, hr0, hre⟩
  rw [← hre]
  exact resolveD_abs_of_ok fs b.remoteRoot r0.1 r0.2 hroot (hnone r0 hr0)

/-- Witness for C6: a second apply of an already-translated bundle is the
identity. -/
theorem claim6_witness :
    applyTranslatePaths ["nb.py"]
        { remoteRoot := "/bundle", jobs := [⟨[.notebook "/bundle/nb"]⟩],
          pipelines := [] }
      = .ok { remoteRoot := "/bundle", jobs := [⟨[.notebook "/bundle/nb"]⟩],
              pipelines := [] } :=
  claim6_idempotent ["nb.py"]
    { remoteRoot := "/bundle", jobs := [⟨[.notebook "./nb.py"]⟩],
      pipelines := [] }
    { remoteRoot := "/bundle", jobs := [⟨[.notebook "/bundle/nb"]⟩],
      pipelines := [] }
    (by decide) (by decide)

/-- Counterexample to C7 as stated: a NotebookTask and a SparkPythonTask
both referencing the identical local path `./x.py` translate to the distinct
remote paths `/bundle/x` and `/bundle/x.py` (extension stripped for the
notebook, kept for the file). -/
theorem claim7_counterexample :
    applyTranslatePaths ["x.py"]
        { remoteRoot := "/bundle",
          jobs := [⟨[.notebook "./x.py", .sparkPython "./x.py"]⟩],
          pipelines := [] }
      = .ok { remoteRoot := "/bundle",
              jobs := [⟨[.notebook "/bundle/x", .sparkPython "/bundle/x.py"]⟩],
              pipelines := [] } ∧
    (bundleRefs
        { remoteRoot := "/bundle",
          jobs := [⟨[.notebook "./x.py", .sparkPython "./x.py"]⟩],
          pipelines := [] }).map Prod.snd = ["./x.py", "./x.py"] ∧
    ("/bundle/x" : String) ≠ "/bundle/x.py" := by
  refine ⟨by decide, by decide, by decide⟩

/-- Claim C7 (amended): any two task or library references of the same
resolution kind holding the identical local path string before a successful
translation hold the identical remote path string after it. -/
theorem claim7_amended_consistency (fs : List String) (b b' : Bundle)
    (i j : Nat) (k : PathKind) (p : String)
    (h : applyTranslatePaths fs b = .ok b')
    (hi : (bundleRefs b)[i]? = some (k, p))
    (hj : (bundleRefs b)[j]? = some (k, p)) :
    (bundleRefs b')[i]? = (bundleRefs b')[j]? := by
  have hmap := apply_ok_eq_mapBundle fs b b' h
  rw [hmap, bundleRefs_mapBundle]
  simp [List.getElem?_map, hi, hj]

/-- Witness for C7 (amended): the two notebook tasks of the end-to-end test
referencing the same notebook translate identically. -/
theorem claim7_witness :
    (bundleRefs
        { remoteRoot := "/bundle",
          jobs := [⟨[.notebook "/bundle/my_job_notebook",
                     .notebook "/bundle/my_job_notebook"]⟩],
          pipelines := [] })[0]?
      = (bundleRefs
        { remoteRoot := "/bundle",
          jobs := [⟨[.notebook "/bundle/my_job_notebook",
                     .notebook "/bundle/my_job_notebook"]⟩],
          pipelines := [] })[1]? :=
  claim7_amended_consistency ["my_job_notebook.py"]
    { remoteRoot := "/bundle",
      jobs := [⟨[.notebook "./my_job_notebook.py",
                 .notebook "./my_job_notebook.py"]⟩],
      pipelines := [] }
    { remoteRoot := "/bundle",
      jobs := [⟨[.notebook "/bundle/my_job_notebook",
                 .notebook "/bundle/my_job_notebook"]⟩],
      pipelines := [] }
    0 1 .notebook "./my_job_notebook.py" (by decide) (by decide) (by decide)

/-- Claim C8: a successful apply preserves the bundle's structure — remote
root, number of jobs and pipelines, number and order of tasks and libraries —
and never alters PythonWheelTask package names, Jar library values, or any
other non-path-bearing variant. -/
theorem claim8_frame (fs : List String) (b b' : Bundle)
    (h : applyTranslatePaths fs b = .ok b') :
    b'.remoteRoot = b.remoteRoot ∧
    b'.jobs.length = b.jobs.length ∧
    b'.pipelines.length = b.pipelines.length ∧
    (∀ i : Nat, ((b'.jobs[i]?).map fun (jb : Job) => jb.tasks.length)
      = ((b.jobs[i]?).map fun (jb : Job) => jb.tasks.length)) ∧
    (∀ i : Nat, ((b'.pipelines[i]?).map fun (pl : Pipeline) => pl.libraries.length)
      = ((b.pipelines[i]?).map fun (pl : Pipeline) => pl.libraries.length)) ∧
    (∀ i j s, taskAt b i j = some (.pythonWheel s) →
      taskAt b' i j = some (.pythonWheel s)) ∧
    (∀ i j, taskAt b i j = some .other → taskAt b' i j = some .other) ∧
    (∀ i j s, libAt b i j = some (.jar s) → libAt b' i j = some (.jar s)) := by
  have hmap := apply_ok_eq_mapBundle fs b b' h
  subst hmap
  refine ⟨rfl, by simp [mapBundle], by simp [mapBundle], ?_, ?_, ?_, ?_, ?_⟩
  · intro i
    simp only [mapBundle, List.getElem?_map]
    cases b.jobs[i]? <;> simp
  · intro i
    simp only [mapBundle, List.getElem?_map]
    cases b.pipelines[i]? <;> simp
  · intro i j s hw
    rw [taskAt_mapBundle, hw]
    simp [mapTask]
  · intro i j hw
    rw [taskAt_mapBundle, hw]
    simp [mapTask]
  · intro i j s hw
    rw [libAt_mapBundle, hw]
    simp [mapLibrary]

/-- Witness for C8: wheel task and jar library survive a successful apply
unchanged. -/
theorem claim8_witness :
    taskAt { remoteRoot := "/bundle", jobs := [⟨[.pythonWheel "foo"]⟩],
             pipelines := [⟨[.jar "foo"]⟩] } 0 0 = some (.pythonWheel "foo") ∧
    libAt { remoteRoot := "/bundle", jobs := [⟨[.pythonWheel "foo"]⟩],
            pipelines := [⟨[.jar "foo"]⟩] } 0 0 = some (.jar "foo") :=
  ⟨(claim8_frame []
      { remoteRoot := "/bundle", jobs := [⟨[.pythonWheel "foo"]⟩],
        pipelines := [⟨[.jar "foo"]⟩] }
      { remoteRoot := "/bundle", jobs := [⟨[.pythonWheel "foo"]⟩],
        pipelines := [⟨[.jar "foo"]⟩] }
      (by decide)).2.2.2.2.2.1 0 0 "foo" (by decide),
   (claim8_frame []
      { remoteRoot := "/bundle", jobs := [⟨[.pythonWheel "foo"]⟩],
        pipelines := [⟨[.jar "foo"]⟩] }
      { remoteRoot := "/bundle", jobs := [⟨[.pythonWheel "foo"]⟩],
        pipelines := [⟨[.jar "foo"]⟩] }
      (by decide)).2.2.2.2.2.2.2 0 0 "foo" (by decide)⟩

/-- Claim C9: the schema type-name validation accepts exactly the recognized
json-schema type names, rejects `int`, `float` and `bool` with a suggestion
of the recognized spelling, and rejects any other name with the generic
message. -/
theorem claim9_schema_type_names :
    (∀ t : String,
      (t = "string" ∨ t = "boolean" ∨ t = "number" ∨ t = "integer") →
        (singlePropSchema t).validate = .ok ()) ∧
    (singlePropSchema "int").validate
      = .error "type int is not a recognized json schema type. Please use \"integer\" instead" ∧
    (singlePropSchema "float").validate
      = .error "type float is not a recognized json schema type. Please use \"number\" instead" ∧
    (singlePropSchema "bool").validate
      = .error "type bool is not a recognized json schema type. Please use \"boolean\" instead" ∧
    (∀ t : String, t ≠ "string" → t ≠ "boolean" → t ≠ "number" →
      t ≠ "integer" → t ≠ "int" → t ≠ "float" → t ≠ "bool" →
        (singlePropSchema t).validate
          = .error ("type " ++ t ++ " is not a recognized json schema type")) := by
  refine ⟨?_, by decide, by decide, by decide, ?_⟩
  · intro t ht
    rcases ht with h | h | h | h <;> subst h <;> decide
  · intro t h1 h2 h3 h4 h5 h6 h7
    simp [Schema.validate, singlePropSchema, validateProps, validateTypeName,
      h1, h2, h3, h4, h5, h6, h7]

/-- Witness for C9: a recognized name validates, an unknown name gets the
generic message. -/
theorem claim9_witness :
    (singlePropSchema "string").validate = .ok () ∧
    (singlePropSchema "foobar").validate
      = .error "type foobar is not a recognized json schema type" := by
  have h2 := claim9_schema_type_names.2.2.2.2 "foobar" (by decide) (by decide)
    (by decide) (by decide) (by decide) (by decide) (by decide)
  rw [show ("type " ++ "foobar" ++ " is not a recognized json schema type")
    = "type foobar is not a recognized json schema type" from by decide] at h2
  exact ⟨claim9_schema_type_names.1 "string" (Or.inl rfl), h2⟩

/-- Claim C10: `Logger.Ask` writes the question to its writer and reads one
line; on a successful read it answers true exactly when the line is
`"y\n"` and returns no error; on a read error it answers false and returns
that error; the question is written in every case. -/
theorem claim10_ask (q line e : String) :
    (ask q line none = ⟨[q], true, none⟩ ↔ line = "y\n") ∧
    (line ≠ "y\n" → ask q line none = ⟨[q], false, none⟩) ∧
    ask q line (some e) = ⟨[q], false, some e⟩ ∧
    (∀ rerr : Option String, (ask q line rerr).written = [q]) := by
  refine ⟨?_, ?_, by simp [ask], ?_⟩
  · by_cases hl : line = "y\n" <;> simp [ask, hl]
  · intro hl; simp [ask, hl]
  · intro rerr
    cases rerr with
    | none => by_cases hl : line = "y\n" <;> simp [ask, hl]
    | some e' => simp [ask]

/-- Witness for C10: a declined answer and a failed read. -/
theorem claim10_witness :
    ask "proceed? " "n\n" none = ⟨["proceed? "], false, none⟩ ∧
    ask "proceed? " "n\n" (some "EOF") = ⟨["proceed? "], false, some "EOF"⟩ := by
  have h := claim10_ask "proceed? " "n\n" "EOF"
  exact ⟨h.2.1 (by decide), h.2.2.1⟩

end BundleCLI
